import Mathlib

/-!
Shallow embedding of the golf-course-recommender client component
(`src/frontend/src/App.jsx` and the detail-capable variant
`src/unnamed/part_000`), together with proofs of the specified
properties of its fetch-and-render lifecycle.

The component state consists of the React `useState` hooks
`courses`, `loading`, `error`, `selectedCourse`, `showModal`;
event handlers are the state updates performed by the `useEffect`
fetch and the `onClick` handlers; the render derivation is the
early-return chain of the `App` function body.
-/

namespace GolfMatch

/-- A course record as consumed from the `/api/courses` endpoint
(fields read by the component: `id`, `name`, `location`,
`difficulty_rating`, `price_range`, `description`).
`difficulty_rating` is modelled as a rational number. -/
structure Course where
  id : Nat
  name : String
  location : String
  difficulty_rating : ℚ
  price_range : String
  description : String
deriving DecidableEq

/-- Underlying cause of a failed fetch: the detail captured by the
`catch (err)` parameter, which the handler ignores. -/
inductive FetchFailure where
  | transportError (detail : String)
  | httpStatus (code : Nat)
  | undecodableBody (raw : String)
deriving DecidableEq

/-- Outcome of the single `axios.get` request: it either resolves with a
decoded body (`response.data`) or rejects with some failure cause. -/
inductive FetchOutcome where
  | success (data : List Course)
  | failure (err : FetchFailure)
deriving DecidableEq

/-- The component's hook state: `useState([])`, `useState(true)`,
`useState(null)`, `useState(null)`, `useState(false)` in source order
of the detail-capable variant (the basic variant omits the last two,
which then stay at their initial values). -/
structure AppState where
  courses : List Course
  loading : Bool
  error : Option String
  selectedCourse : Option Course
  showModal : Bool
deriving DecidableEq

/-- Initial hook values at component initialization. -/
def initState : AppState :=
  { courses := []
    loading := true
    error := none
    selectedCourse := none
    showModal := false }

/-- The `fetchCourses` settlement: on resolve, `setCourses(response.data)`
and `setLoading(false)`; on reject, `setError('Failed to fetch courses')`
and `setLoading(false)`. The failure detail `err` is discarded. -/
def fetchCourses : FetchOutcome → AppState → AppState
  | FetchOutcome.success data, s => { s with courses := data, loading := false }
  | FetchOutcome.failure _, s =>
      { s with error := some "Failed to fetch courses", loading := false }

/-- Card `onClick`: `setSelectedCourse(course); setShowModal(true)`. -/
def cardClick (course : Course) (s : AppState) : AppState :=
  { s with selectedCourse := some course, showModal := true }

/-- Backdrop `onClick` on `modal-overlay`: `setShowModal(false)`. -/
def backdropClick (s : AppState) : AppState :=
  { s with showModal := false }

/-- Close-button `onClick`: `setShowModal(false)`. -/
def closeClick (s : AppState) : AppState :=
  { s with showModal := false }

/-- Click on `modal-content`: `e => e.stopPropagation()` — no state change,
and the event never reaches the backdrop handler. -/
def contentClick (s : AppState) : AppState := s

/-- The overlay rendered by `showModal && selectedCourse && (...)`:
present exactly when both the flag is true and a course is selected. -/
def overlayOf (s : AppState) : Option Course :=
  if s.showModal && s.selectedCourse.isSome then s.selectedCourse else none

/-- The rating-bar fill of the detail view:
`(selectedCourse.difficulty_rating / 5) * 100` (a percentage). -/
def ratingBarFill (course : Course) : ℚ :=
  course.difficulty_rating / 5 * 100

/-- The rating-bar fill actually shown by the modal, when one is rendered. -/
def modalRatingFill (s : AppState) : Option ℚ :=
  (overlayOf s).map ratingBarFill

/-- The render derivation's output: exactly one constructor per JSX tree
the `App` body can return. -/
inductive RenderOutput where
  | loadingView
  | errorView (text : String)
  | collectionView (cards : List Course) (overlay : Option Course)
deriving DecidableEq

/-- The early-return chain of `App`:
`if (loading) return <div>Loading...</div>;`
`if (error) return <div>Error: {error}</div>;`
otherwise the grid (`courses.map(...)` in order), plus the overlay. -/
def render (s : AppState) : RenderOutput :=
  if s.loading then RenderOutput.loadingView
  else
    match s.error with
    | some m => RenderOutput.errorView ("Error: " ++ m)
    | none => RenderOutput.collectionView s.courses (overlayOf s)

def RenderOutput.isLoading : RenderOutput → Bool
  | RenderOutput.loadingView => true
  | _ => false

def RenderOutput.isError : RenderOutput → Bool
  | RenderOutput.errorView _ => true
  | _ => false

def RenderOutput.isCollection : RenderOutput → Bool
  | RenderOutput.collectionView _ _ => true
  | _ => false

/-- The card list of a render output (empty for the non-grid views). -/
def cardsOf : RenderOutput → List Course
  | RenderOutput.collectionView cards _ => cards
  | _ => []

/-- The grid branch is reached: not loading and no error. -/
def rendersGrid (s : AppState) : Prop :=
  s.loading = false ∧ s.error = none

/-- The modal overlay is present in the rendered output. -/
def overlayRendered (s : AppState) : Prop :=
  rendersGrid s ∧ overlayOf s ≠ none

/-- The events that can act on the component state. -/
inductive Event where
  | settle (o : FetchOutcome)
  | card (course : Course)
  | backdrop
  | content
  | close
deriving DecidableEq

/-- State update performed by each event's handler. -/
def handle : Event → AppState → AppState
  | Event.settle o, s => fetchCourses o s
  | Event.card course, s => cardClick course s
  | Event.backdrop, s => backdropClick s
  | Event.content, s => contentClick s
  | Event.close, s => closeClick s

/-- When an event can fire: the fetch settles exactly while the component
is still loading (it is issued once, at mount); a card can be clicked only
when the grid is rendered and shows that card; the overlay handlers exist
only while the overlay is rendered. -/
def enabled : Event → AppState → Prop
  | Event.settle _, s => s.loading = true
  | Event.card course, s => rendersGrid s ∧ course ∈ s.courses
  | Event.backdrop, s => overlayRendered s
  | Event.content, s => overlayRendered s
  | Event.close, s => overlayRendered s

/-- States reachable from initialization by enabled events. -/
inductive Reachable : AppState → Prop where
  | init : Reachable initState
  | step (e : Event) (s : AppState) :
      Reachable s → enabled e s → Reachable (handle e s)

/-- The DataLoader lifecycle state, as derived from the hook state. -/
inductive FetchState where
  | Pending
  | Ready (collection : List Course)
  | Failed (message : String)
deriving DecidableEq

/-- Which FetchState the hooks encode: still loading means `Pending`;
otherwise a set error means `Failed`, else `Ready` with the collection. -/
def fetchStateOf (s : AppState) : FetchState :=
  if s.loading then FetchState.Pending
  else
    match s.error with
    | some m => FetchState.Failed m
    | none => FetchState.Ready s.courses

/-- Concrete course used to instantiate theorems (E2E scenario A). -/
def pineHills : Course :=
  { id := 1
    name := "Pine Hills"
    location := "Austin"
    difficulty_rating := 3
    price_range := "$$"
    description := "A tree-lined course" }

/-- State after the fetch resolves with the singleton collection. -/
def readyState : AppState :=
  handle (Event.settle (FetchOutcome.success [pineHills])) initState

/-- State after additionally clicking the Pine Hills card. -/
def selectedState : AppState :=
  handle (Event.card pineHills) readyState

/-- State after additionally dismissing the overlay via the backdrop. -/
def dismissedState : AppState :=
  handle Event.backdrop selectedState

theorem reachable_readyState : Reachable readyState :=
  Reachable.step _ _ Reachable.init rfl

theorem reachable_selectedState : Reachable selectedState := by
  refine Reachable.step _ _ reachable_readyState ?_
  constructor
  · exact ⟨rfl, rfl⟩
  · show pineHills ∈ [pineHills]
    exact List.mem_singleton.mpr rfl

theorem reachable_dismissedState : Reachable dismissedState := by
  refine Reachable.step _ _ reachable_selectedState ?_
  constructor
  · exact ⟨rfl, rfl⟩
  · intro h
    simp [selectedState, handle, cardClick, overlayOf] at h

/-- Helper invariant: while still loading, no error has been recorded
(the only reachable loading state is the initial one). -/
theorem reachable_loading_no_error (s : AppState) (h : Reachable s)
    (hl : s.loading = true) : s.error = none := by
  induction h with
  | init => rfl
  | step e t ht hen ih =>
      cases e with
      | settle o => cases o <;> simp [handle, fetchCourses] at hl
      | card course =>
          simp only [handle, cardClick] at hl
          exact absurd hl (by simp [hen.1.1])
      | backdrop =>
          simp only [handle, backdropClick] at hl
          exact absurd hl (by simp [hen.1.1])
      | content => exact ih hl
      | close =>
          simp only [handle, closeClick] at hl
          exact absurd hl (by simp [hen.1.1])

/-- C1: for every reachable state the render derivation produces exactly one
of loading-view, error-view, collection-view; while the fetch is pending only
the loading placeholder is rendered, on failure only the error message, and
otherwise only the collection grid. -/
theorem render_exclusive (s : AppState) (h : Reachable s) :
    (render s).isLoading.toNat + (render s).isError.toNat
      + (render s).isCollection.toNat = 1 ∧
    (s.loading = true → render s = RenderOutput.loadingView) ∧
    (∀ m : String, s.loading = false → s.error = some m →
      (render s).isError = true ∧ (render s).isLoading = false ∧
      (render s).isCollection = false) ∧
    (s.loading = false → s.error = none →
      (render s).isCollection = true ∧ (render s).isLoading = false ∧
      (render s).isError = false) := by
  clear h
  refine ⟨?_, ?_, ?_, ?_⟩
  · unfold render
    rcases s with ⟨cs, l, e, sel, m⟩
    cases l <;> cases e <;>
      simp [RenderOutput.isLoading, RenderOutput.isError, RenderOutput.isCollection]
  · intro hl
    simp [render, hl]
  · intro m hl he
    simp [render, hl, he, RenderOutput.isError, RenderOutput.isLoading,
      RenderOutput.isCollection]
  · intro hl he
    simp [render, hl, he, RenderOutput.isError, RenderOutput.isLoading,
      RenderOutput.isCollection]

/-- C1 witness: the exclusivity count at the initial (pending) state. -/
theorem render_exclusive_witness :
    (render initState).isLoading.toNat + (render initState).isError.toNat
      + (render initState).isCollection.toNat = 1 :=
  (render_exclusive initState Reachable.init).1

/-- C2: every failing fetch outcome, whatever its underlying cause, stores
the fixed message "Failed to fetch courses"; the rendered error view carries
that fixed string and no card grid, so two runs differing only in the
failure cause render identically. -/
theorem failure_masking (f g : FetchFailure) (s : AppState)
    (h : s.loading = true) :
    (fetchCourses (FetchOutcome.failure f) s).error
      = some "Failed to fetch courses" ∧
    render (fetchCourses (FetchOutcome.failure f) s)
      = RenderOutput.errorView ("Error: " ++ "Failed to fetch courses") ∧
    render (fetchCourses (FetchOutcome.failure f) s)
      = render (fetchCourses (FetchOutcome.failure g) s) ∧
    (render (fetchCourses (FetchOutcome.failure f) s)).isCollection = false ∧
    cardsOf (render (fetchCourses (FetchOutcome.failure f) s)) = [] := by
  clear h
  refine ⟨rfl, ?_, ?_, ?_, ?_⟩ <;>
    simp [render, fetchCourses, RenderOutput.isCollection, cardsOf]

/-- C2 witness: an HTTP 500 and a transport error render the same fixed
error view from the initial state. -/
theorem failure_masking_witness :
    render (fetchCourses (FetchOutcome.failure (FetchFailure.httpStatus 500))
        initState)
      = render (fetchCourses
          (FetchOutcome.failure (FetchFailure.transportError "ECONNREFUSED"))
          initState) :=
  (failure_masking (FetchFailure.httpStatus 500)
    (FetchFailure.transportError "ECONNREFUSED") initState rfl).2.2.1

/-- C3: a successful response with an empty collection renders the
collection-view with zero cards, not the error-view and not the
loading-view. -/
theorem empty_collection_renders_grid :
    render (fetchCourses (FetchOutcome.success []) initState)
      = RenderOutput.collectionView [] none ∧
    cardsOf (render (fetchCourses (FetchOutcome.success []) initState)) = [] ∧
    (render (fetchCourses (FetchOutcome.success []) initState)).isError
      = false ∧
    (render (fetchCourses (FetchOutcome.success []) initState)).isLoading
      = false := by
  refine ⟨rfl, rfl, rfl, rfl⟩

/-- C5: the backdrop click sets the visibility flag to false; a click on the
overlay content is stopped by `stopPropagation` and changes nothing, so it
never closes the overlay; the explicit close button performs exactly the
same transition as the backdrop click. -/
theorem overlay_dismissal (s : AppState) :
    (backdropClick s).showModal = false ∧
    contentClick s = s ∧
    overlayOf (contentClick s) = overlayOf s ∧
    closeClick s = backdropClick s :=
  ⟨rfl, rfl, rfl, rfl⟩

/-- C6: the detail view's rating-bar fill is the selected course's
`difficulty_rating / 5 * 100` percent; it equals 60 for rating 3, 100 for
rating 5, and 0 for rating 0. -/
theorem rating_fill (course : Course) :
    (∀ s : AppState, overlayOf s = some course →
      modalRatingFill s = some (course.difficulty_rating / 5 * 100)) ∧
    (course.difficulty_rating = 3 → ratingBarFill course = 60) ∧
    (course.difficulty_rating = 5 → ratingBarFill course = 100) ∧
    (course.difficulty_rating = 0 → ratingBarFill course = 0) := by
  refine ⟨?_, ?_, ?_, ?_⟩
  · intro s hs
    simp [modalRatingFill, hs, ratingBarFill]
  · intro h
    unfold ratingBarFill
    rw [h]
    norm_num
  · intro h
    unfold ratingBarFill
    rw [h]
    norm_num
  · intro h
    unfold ratingBarFill
    rw [h]
    norm_num

/-- C6 witness: Pine Hills has difficulty rating 3 and fill 60 percent. -/
theorem rating_fill_witness : ratingBarFill pineHills = 60 :=
  (rating_fill pineHills).2.1 rfl

/-- C4 counterexample: after selecting a course and dismissing the overlay
via the backdrop, the state is reachable and has a non-empty selection while
the visibility flag is false, so `visible == true` is not equivalent to
`selected` being non-empty. -/
theorem selection_iff_cex :
    Reachable dismissedState ∧
    ¬ (dismissedState.showModal = true
        ↔ dismissedState.selectedCourse.isSome = true) := by
  refine ⟨reachable_dismissedState, ?_⟩
  intro hiff
  have h1 : dismissedState.selectedCourse.isSome = true := rfl
  have h2 : dismissedState.showModal = false := rfl
  rw [hiff.mpr h1] at h2
  exact Bool.noConfusion h2

/-- C4 (amended): in every reachable state, `visible == true` implies that
`selected` is non-empty; the converse fails because dismissing the overlay
clears only the visibility flag, not the selection. -/
theorem selection_invariant (s : AppState) (h : Reachable s)
    (hm : s.showModal = true) : s.selectedCourse.isSome = true := by
  induction h with
  | init => exact absurd hm (by simp [initState])
  | step e t ht hen ih =>
      cases e with
      | settle o =>
          cases o with
          | success data =>
              simp only [handle, fetchCourses] at hm ⊢
              exact ih hm
          | failure f =>
              simp only [handle, fetchCourses] at hm ⊢
              exact ih hm
      | card course => rfl
      | backdrop =>
          exact absurd hm (by simp [handle, backdropClick])
      | content => exact ih hm
      | close =>
          exact absurd hm (by simp [handle, closeClick])

/-- C4 (amended) witness: the state with the Pine Hills overlay open is
reachable, its visibility flag is true, and its selection is non-empty. -/
theorem selection_invariant_witness :
    selectedState.selectedCourse.isSome = true :=
  selection_invariant selectedState reachable_selectedState rfl

/-- C7: the fetch lifecycle starts Pending; while a state is not Pending no
enabled event changes its fetch state and no settlement is enabled at all;
from a reachable Pending state a resolution moves to `Ready` with exactly
the received collection and a rejection to `Failed` with the fixed
message. -/
theorem fetch_forward_only :
    fetchStateOf initState = FetchState.Pending ∧
    (∀ (e : Event) (s : AppState), enabled e s →
      fetchStateOf s ≠ FetchState.Pending →
      fetchStateOf (handle e s) = fetchStateOf s) ∧
    (∀ (o : FetchOutcome) (s : AppState),
      fetchStateOf s ≠ FetchState.Pending →
      ¬ enabled (Event.settle o) s) ∧
    (∀ (d : List Course) (s : AppState), Reachable s → s.loading = true →
      fetchStateOf (fetchCourses (FetchOutcome.success d) s)
        = FetchState.Ready d) ∧
    (∀ (f : FetchFailure) (s : AppState), s.loading = true →
      fetchStateOf (fetchCourses (FetchOutcome.failure f) s)
        = FetchState.Failed "Failed to fetch courses") := by
  have hpend : ∀ s : AppState, s.loading = true →
      fetchStateOf s = FetchState.Pending := by
    intro s hl
    simp [fetchStateOf, hl]
  refine ⟨rfl, ?_, ?_, ?_, ?_⟩
  · intro e s hen hnp
    cases e with
    | settle o => exact absurd (hpend s hen) hnp
    | card course => simp [handle, cardClick, fetchStateOf]
    | backdrop => simp [handle, backdropClick, fetchStateOf]
    | content => rfl
    | close => simp [handle, closeClick, fetchStateOf]
  · intro o s hnp hen
    exact absurd (hpend s hen) hnp
  · intro d s hr hl
    have he : s.error = none := reachable_loading_no_error s hr hl
    simp [fetchCourses, fetchStateOf, he]
  · intro f s hl
    simp [fetchCourses, fetchStateOf]

/-- C7 witness: from the initial state, a successful settlement yields
`Ready` with the received collection. -/
theorem fetch_forward_only_witness :
    fetchStateOf (fetchCourses (FetchOutcome.success [pineHills]) initState)
      = FetchState.Ready [pineHills] :=
  fetch_forward_only.2.2.2.1 [pineHills] initState Reachable.init rfl

/-- C8: a successful settlement stores the response body as received and the
grid renders exactly those records in order — the i-th rendered card is the
i-th record of the response, with no resorting or filtering. -/
theorem success_preserves_order (d : List Course) (s : AppState)
    (hl : s.loading = true) (he : s.error = none) :
    (fetchCourses (FetchOutcome.success d) s).courses = d ∧
    cardsOf (render (fetchCourses (FetchOutcome.success d) s)) = d ∧
    (∀ i : Nat,
      (cardsOf (render (fetchCourses (FetchOutcome.success d) s))).get? i
        = d.get? i) := by
  clear hl
  have hc : cardsOf (render (fetchCourses (FetchOutcome.success d) s)) = d := by
    simp [fetchCourses, render, he, cardsOf]
  exact ⟨rfl, hc, fun i => by rw [hc]⟩

/-- C8 witness: the singleton response renders as the singleton card list. -/
theorem success_preserves_order_witness :
    cardsOf (render (fetchCourses (FetchOutcome.success [pineHills]) initState))
      = [pineHills] :=
  (success_preserves_order [pineHills] initState rfl rfl).2.1

/-- C9: clicking a rendered card sets the selection to that course and the
visibility flag to true, while the collection, the loading flag and the
error value are unchanged; no fetch settlement is possible afterwards, since
none is issued by the click. -/
theorem card_click_frame (course : Course) (s : AppState)
    (hg : rendersGrid s) (hc : course ∈ s.courses) :
    (cardClick course s).selectedCourse = some course ∧
    (cardClick course s).showModal = true ∧
    (cardClick course s).courses = s.courses ∧
    (cardClick course s).loading = s.loading ∧
    (cardClick course s).error = s.error ∧
    (∀ o : FetchOutcome, ¬ enabled (Event.settle o) (cardClick course s)) := by
  refine ⟨rfl, rfl, rfl, rfl, rfl, ?_⟩
  intro o hen
  have : s.loading = true := hen
  rw [hg.1] at this
  exact Bool.false_ne_true this

/-- C9 witness: clicking the Pine Hills card in the ready state. -/
theorem card_click_frame_witness :
    (cardClick pineHills readyState).selectedCourse = some pineHills :=
  (card_click_frame pineHills readyState ⟨rfl, rfl⟩
    (List.mem_singleton.mpr rfl)).1

/-- C10: the overlay is rendered only when the visibility flag is true and a
course is selected; with an empty selection no overlay is rendered even if
the flag is true, and the modal's rating fill dereferences no field then. -/
theorem overlay_guard (s : AppState) :
    (s.selectedCourse = none → overlayOf s = none) ∧
    (s.selectedCourse = none → modalRatingFill s = none) ∧
    (s.showModal = false → overlayOf s = none) ∧
    (∀ c : Course, overlayOf s = some c →
      s.showModal = true ∧ s.selectedCourse = some c) := by
  refine ⟨?_, ?_, ?_, ?_⟩
  · intro hn
    simp [overlayOf, hn]
  · intro hn
    simp [modalRatingFill, overlayOf, hn]
  · intro hm
    simp [overlayOf, hm]
  · intro c hc
    unfold overlayOf at hc
    by_cases hcond : (s.showModal && s.selectedCourse.isSome) = true
    · rw [if_pos hcond] at hc
      have hb := Bool.and_elim_left hcond
      exact ⟨hb, hc⟩
    · rw [if_neg hcond] at hc
      exact absurd hc (Option.some_ne_none c).symm

/-- C10 witness: a state with the flag raised but no selection renders no
overlay. -/
theorem overlay_guard_witness :
    overlayOf { initState with showModal := true } = none :=
  (overlay_guard { initState with showModal := true }).1 rfl

end GolfMatch
